import Mathlib

/-!
Shallow embedding of the Game Boy PPU core from `Src/Cores/GB/PPU.cpp`
(repository UltimaOkin/Angbe).  Byte-valued hardware registers are
modelled as `Nat` (with explicit wraparound where the C++ unsigned
arithmetic can wrap), the 8 KiB VRAM / 160-byte OAM / framebuffers are
modelled as functions `Nat → Nat`, and the outbound
`bus.request_interrupt` calls are recorded in an append-only log `req`
carried inside the state.
-/

/-- Modelled from the spec: the control-register bit masks
(display/background/window/sprite enables, tile-map and tile-data bank
selects, sprite size) come from the header `PPU.hpp`, which is not part
of the measured sources; the bit layout is the standard one the spec
describes. -/
def LCDControlFlags.BGEnable : Nat := 0x01

/-- Modelled from the spec: sprite-enable control bit. -/
def LCDControlFlags.SpriteEnable : Nat := 0x02

/-- Modelled from the spec: sprite-size control bit (16-pixel-tall sprites). -/
def LCDControlFlags.SpriteSize : Nat := 0x04

/-- Modelled from the spec: background tile-map bank select bit. -/
def LCDControlFlags.BGTileMap : Nat := 0x08

/-- Modelled from the spec: background/window tile-data bank select bit. -/
def LCDControlFlags.BGWindowTileData : Nat := 0x10

/-- Modelled from the spec: window-enable control bit. -/
def LCDControlFlags.WindowEnable : Nat := 0x20

/-- Modelled from the spec: window tile-map bank select bit. -/
def LCDControlFlags.WindowTileMap : Nat := 0x40

/-- Modelled from the spec: display-enable control bit. -/
def LCDControlFlags.DisplayEnable : Nat := 0x80

/-- Modelled from the spec: low two status bits hold the current mode. -/
def ModeFlag : Nat := 0x03

/-- Modelled from the spec: LY=LYC compare flag bit of the status register. -/
def LYCandLYCompareType : Nat := 0x04

/-- Modelled from the spec: HBlank STAT-interrupt enable bit. -/
def EnableHBlankInt : Nat := 0x08

/-- Modelled from the spec: VBlank STAT-interrupt enable bit. -/
def EnableVBlankInt : Nat := 0x10

/-- Modelled from the spec: OAM STAT-interrupt enable bit. -/
def EnableOAMInt : Nat := 0x20

/-- Modelled from the spec: LY=LYC STAT-interrupt enable bit. -/
def EnableLYCandLYInt : Nat := 0x40

/-- Modelled from the spec: sprite attribute bit selecting object palette 1. -/
def ObjectAttributeFlags.Palette : Nat := 0x10

/-- Modelled from the spec: sprite attribute bit for horizontal mirroring. -/
def ObjectAttributeFlags.FlipX : Nat := 0x20

/-- Modelled from the spec: sprite attribute bit for vertical mirroring. -/
def ObjectAttributeFlags.FlipY : Nat := 0x40

/-- Modelled from the spec: sprite attribute bit giving the background priority. -/
def ObjectAttributeFlags.Priority : Nat := 0x80

/-- Modelled from the spec: render-layer mask bit for the background layer
(debug-only mask, not present on real hardware). -/
def DisplayRenderFlags.Background : Nat := 0x01

/-- Modelled from the spec: render-layer mask bit for the window layer. -/
def DisplayRenderFlags.Window : Nat := 0x02

/-- Modelled from the spec: render-layer mask bit for the sprite layer. -/
def DisplayRenderFlags.Objects : Nat := 0x04

/-- Modelled from the spec: the interrupt-kind tag the PPU passes to
`bus.request_interrupt` for the VBlank interrupt (header constant). -/
def INT_VBLANK_BIT : Nat := 0x01

/-- Modelled from the spec: the interrupt-kind tag for the LCD-STAT interrupt. -/
def INT_LCD_STAT_BIT : Nat := 0x02

/-- Modelled from the spec: screen width in pixels. -/
def LCD_WIDTH : Nat := 160

/-- Modelled from the spec: bytes per framebuffer pixel. -/
def COLOR_DEPTH : Nat := 4

/-- Modelled from the spec: the 4-entry shade-to-RGBA table from the header.
Each shade is four bytes; the concrete byte values are irrelevant to every
claim, only the indexing by the 2-bit shade matters. -/
def color_table (shade : Nat) : List Nat :=
  match shade with
  | 0 => [224, 248, 208, 255]
  | 1 => [136, 192, 112, 255]
  | 2 => [52, 104, 86, 255]
  | _ => [8, 24, 32, 255]

/-- One OAM sprite entry, as the C++ `Object` packed struct: Y, X, tile
index and attribute flags, each one byte. -/
structure Object where
  y : Nat
  x : Nat
  tile : Nat
  attributes : Nat
  deriving DecidableEq, Repr

instance : Inhabited Object := ⟨{ y := 0, x := 0, tile := 0, attributes := 0 }⟩

/-- The `PPUState` enum; the numeric encoding (HBlank=0, VBlank=1,
OAMSearch=2, DrawScanline=3) is forced by `status |= mode & 0x03` and the
`mode == 0/1/2` comparisons in `stat_any`. -/
inductive PPUState where
  | HBlank
  | VBlank
  | OAMSearch
  | DrawScanline
  deriving DecidableEq, Repr

/-- Numeric encoding of `PPUState` used by the status register. -/
def PPUState.toNat : PPUState → Nat
  | .HBlank => 0
  | .VBlank => 1
  | .OAMSearch => 2
  | .DrawScanline => 3

/-- The PPU state: every mutable member of the C++ class, plus `req`, the
ordered log of interrupt kinds passed to `bus.request_interrupt`. -/
@[ext] structure PPU where
  status : Nat
  lcd_control : Nat
  background_palette : Nat
  object_palette_0 : Nat
  object_palette_1 : Nat
  screen_scroll_y : Nat
  screen_scroll_x : Nat
  window_y : Nat
  window_x : Nat
  line_y_compare : Nat
  vram : Nat → Nat
  oam : Nat → Nat
  framebuffer : Nat → Nat
  framebuffer_complete : Nat → Nat
  bg_color_table : Nat → Nat
  objects_on_scanline : List Object
  num_obj_on_scanline : Nat
  mode : PPUState
  window_draw_flag : Bool
  previously_disabled : Bool
  cycles : Nat
  line_y : Nat
  window_line_y : Nat
  render_flags : Nat
  req : List Nat

/-- Pointwise update of a byte-array-as-function. -/
def upd (f : Nat → Nat) (k v : Nat) : Nat → Nat :=
  fun j => if j = k then v else f j

/-- Write the four bytes of `color` at byte offset `base`
(the `std::copy` into the 4-byte framebuffer pixel span). -/
def write_px (fb : Nat → Nat) (base : Nat) (color : List Nat) : Nat → Nat :=
  fun j => if base ≤ j ∧ j < base + 4 then color.getD (j - base) 0 else fb j

/-- Reinterpret a byte as a signed 8-bit value, as the `(int8_t)` cast. -/
def int8 (b : Nat) : Int :=
  if b < 128 then (b : Int) else (b : Int) - 256

/-- PPU::check_stat. -/
def PPU.check_stat (s : PPU) (flags : Nat) : Bool :=
  s.status &&& flags != 0

/-- PPU::set_stat. -/
def PPU.set_stat (s : PPU) (flags : Nat) (value : Bool) : PPU :=
  if value then { s with status := s.status ||| flags }
  else { s with status := s.status &&& (255 ^^^ flags) }

/-- Record an outbound `bus.request_interrupt(kind)` call in the log. -/
def PPU.request_interrupt (s : PPU) (kind : Nat) : PPU :=
  { s with req := s.req ++ [kind] }

/-- PPU::stat_any: whether any enabled STAT interrupt source is currently
asserted (the early-return chain flattened into nested conditionals). -/
def PPU.stat_any (s : PPU) : Bool :=
  if s.check_stat EnableLYCandLYInt && s.check_stat LYCandLYCompareType then true
  else if s.check_stat EnableOAMInt && (s.mode.toNat == 2) then true
  else if s.check_stat EnableVBlankInt && (s.mode.toNat == 1) then true
  else if s.check_stat EnableHBlankInt && (s.mode.toNat == 0) then true
  else false

/-- PPU::check_ly_lyc. -/
def PPU.check_ly_lyc (s : PPU) (allow_interrupts : Bool) : PPU :=
  let s := s.set_stat LYCandLYCompareType false
  if s.line_y == s.line_y_compare then
    let s := s.set_stat LYCandLYCompareType true
    if s.check_stat EnableLYCandLYInt && allow_interrupts then
      s.request_interrupt INT_LCD_STAT_BIT
    else s
  else s

/-- PPU::reset: a hard reset zeroes the registers, memories and
framebuffers and forces HBlank; both hard and soft reset clear the
transient counters (window latch, sprite count, cycle accumulator, line
counter, window line counter). -/
def PPU.reset (s : PPU) (hard_reset : Bool) : PPU :=
  let s :=
    if hard_reset then
      { s with status := 0, lcd_control := 0, background_palette := 0,
               object_palette_0 := 0, object_palette_1 := 0,
               screen_scroll_y := 0, screen_scroll_x := 0,
               window_y := 0, window_x := 0, line_y_compare := 0,
               vram := fun _ => 0, oam := fun _ => 0,
               framebuffer := fun _ => 0, framebuffer_complete := fun _ => 0,
               bg_color_table := fun _ => 0, objects_on_scanline := [],
               mode := PPUState.HBlank }
    else s
  { s with window_draw_flag := false, num_obj_on_scanline := 0,
           cycles := 0, line_y := 0, window_line_y := 0 }

/-- Decode OAM entry `i` (four consecutive bytes) into an `Object`, as the
`reinterpret_cast<const Object *>(&oam[i * 4])` read. -/
def PPU.oam_entry (s : PPU) (i : Nat) : Object :=
  { y := s.oam (i * 4), x := s.oam (i * 4 + 1),
    tile := s.oam (i * 4 + 2), attributes := s.oam (i * 4 + 3) }

/-- Eligibility test of PPU::scan_oam: `corrected_y_position <= line_y`
and `corrected_y_position + height > line_y`, in signed arithmetic. -/
def eligible_obj (height line : Nat) (o : Object) : Bool :=
  ((o.y : Int) - 16 ≤ (line : Int)) && ((o.y : Int) - 16 + (height : Int) > (line : Int))

/-- The collection loop of PPU::scan_oam: walk the entries in index order,
stop as soon as ten have been collected. -/
def collect_objs (height line : Nat) : List Object → Nat → List Object
  | [], _ => []
  | o :: rest, total =>
    if total == 10 then []
    else if eligible_obj height line o then
      o :: collect_objs height line rest (total + 1)
    else collect_objs height line rest total

/-- One step of the stable insertion sort implementing the
`std::stable_sort` by `left.x < right.x`: the new element goes after every
already-placed element whose X is less than or equal to its own. -/
def insert_obj (o : Object) : List Object → List Object
  | [] => [o]
  | a :: t => if o.x < a.x then o :: a :: t else a :: insert_obj o t

/-- Stable sort of the collected sprites by ascending X. -/
def sort_objs (l : List Object) : List Object :=
  l.foldl (fun acc o => insert_obj o acc) []

/-- PPU::scan_oam. -/
def PPU.scan_oam (s : PPU) : PPU :=
  let height := if s.lcd_control &&& LCDControlFlags.SpriteSize != 0 then 16 else 8
  let selected := collect_objs height s.line_y ((List.range 40).map s.oam_entry) 0
  { s with num_obj_on_scanline := selected.length,
           objects_on_scanline := sort_objs selected }

/-- Shared tile fetch of the background and window passes: look the tile
index up in the 32×32 map, resolve the pixel-data address with the
signed/unsigned bank convention, and extract the 2-bit color index of the
pixel at `x_offset`, `y_offset`. -/
def PPU.tile_pixel (s : PPU) (tile_map_address tile_data_address x_offset y_offset : Nat) :
    Nat :=
  let tile_id := s.vram ((tile_map_address &&& 0x1FFF) + ((x_offset / 8) &&& 31) +
    (((y_offset / 8) &&& 31) * 32))
  let tile_index : Nat :=
    if tile_data_address == 0x8800 then
      ((((tile_data_address + 0x800) &&& 0x1FFF : Nat) : Int) + int8 tile_id * 16 +
        (((y_offset &&& 7) * 2 : Nat) : Int)).toNat
    else
      (tile_data_address &&& 0x1FFF) + tile_id * 16 + (y_offset &&& 7) * 2
  let low_byte := s.vram tile_index
  let high_byte := s.vram (tile_index + 1)
  let bit := 7 - (x_offset &&& 7)
  let low_bit := (low_byte >>> bit) &&& 1
  let high_bit := (high_byte >>> bit) &&& 1
  (high_bit <<< 1) ||| low_bit

/-- Loop body of PPU::render_bg_layer for horizontal position `i`. -/
def PPU.render_bg_pixel (tile_map_address tile_data_address : Nat) (s : PPU) (i : Nat) :
    PPU :=
  let x_offset := (s.screen_scroll_x + i) % 256
  let y_offset := (s.screen_scroll_y + s.line_y) % 256
  let pixel := s.tile_pixel tile_map_address tile_data_address x_offset y_offset
  let framebuffer_line_y := s.line_y * LCD_WIDTH
  let disabled := (s.lcd_control &&& LCDControlFlags.BGEnable == 0) ||
    (s.render_flags &&& DisplayRenderFlags.Background == 0)
  let color :=
    if disabled then color_table (s.background_palette &&& 3)
    else color_table ((s.background_palette >>> (2 * pixel)) &&& 3)
  { s with
    bg_color_table :=
      upd s.bg_color_table (framebuffer_line_y + i) (if disabled then 0 else pixel),
    framebuffer := write_px s.framebuffer ((framebuffer_line_y + i) * COLOR_DEPTH) color }

/-- The 160-iteration loop of PPU::render_bg_layer: `bg_loop tma tda n s`
has processed horizontal positions `0 ≤ i < n`. -/
def PPU.bg_loop (tile_map_address tile_data_address : Nat) : Nat → PPU → PPU
  | 0, s => s
  | n + 1, s =>
    PPU.render_bg_pixel tile_map_address tile_data_address
      (PPU.bg_loop tile_map_address tile_data_address n s) n

/-- PPU::render_bg_layer. -/
def PPU.render_bg_layer (s : PPU) : PPU :=
  let tile_map_address :=
    if s.lcd_control &&& LCDControlFlags.BGTileMap != 0 then 0x9c00 else 0x9800
  let tile_data_address :=
    if s.lcd_control &&& LCDControlFlags.BGWindowTileData != 0 then 0x8000 else 0x8800
  PPU.bg_loop tile_map_address tile_data_address 160 s

/-- Loop body of PPU::render_window_layer for horizontal position `i`; the
second pair component is the `advance_by` local of the C++ loop. -/
def PPU.render_window_pixel (tile_map_address tile_data_address : Nat) (p : PPU × Nat)
    (i : Nat) : PPU × Nat :=
  let s := p.1
  if (s.window_y : Int) ≤ (s.line_y : Int) ∧ ((s.window_x : Int) - 7) ≤ (i : Int) then
    let x_offset := (((i : Int) - ((s.window_x : Int) - 7)).toNat) % 256
    let y_offset := s.window_line_y
    let pixel := s.tile_pixel tile_map_address tile_data_address x_offset y_offset
    let framebuffer_line_y := s.line_y * LCD_WIDTH
    let color := color_table ((s.background_palette >>> (2 * pixel)) &&& 3)
    ({ s with
       bg_color_table := upd s.bg_color_table (framebuffer_line_y + i) pixel,
       framebuffer :=
         write_px s.framebuffer ((framebuffer_line_y + i) * COLOR_DEPTH) color }, 1)
  else p

/-- The 160-iteration loop of PPU::render_window_layer. -/
def PPU.win_loop (tile_map_address tile_data_address : Nat) : Nat → PPU × Nat → PPU × Nat
  | 0, p => p
  | n + 1, p =>
    PPU.render_window_pixel tile_map_address tile_data_address
      (PPU.win_loop tile_map_address tile_data_address n p) n

/-- PPU::render_window_layer. -/
def PPU.render_window_layer (s : PPU) : PPU :=
  let tile_map_address :=
    if s.lcd_control &&& LCDControlFlags.WindowTileMap != 0 then 0x9c00 else 0x9800
  let tile_data_address :=
    if s.lcd_control &&& LCDControlFlags.BGWindowTileData != 0 then 0x8000 else 0x8800
  if (s.lcd_control &&& LCDControlFlags.WindowEnable != 0) && s.window_draw_flag &&
      (s.render_flags &&& DisplayRenderFlags.Window != 0) then
    let p := PPU.win_loop tile_map_address tile_data_address 160 (s, 0)
    { p.1 with window_line_y := (p.1.window_line_y + p.2) % 256 }
  else s

/-- Innermost sprite-pixel write of PPU::render_sprite_layer: color index 0
is transparent; without the priority attribute the pixel is drawn
unconditionally; with it the pixel is drawn only over background-shadow
value 0. -/
def PPU.sprite_pixel (s : PPU) (framebuffer_line_y framebuffer_line_x : Nat)
    (pixel palette : Nat) (priority : Bool) : PPU :=
  let color := color_table ((palette >>> (2 * pixel)) &&& 3)
  let base := (framebuffer_line_y + framebuffer_line_x) * COLOR_DEPTH
  if pixel == 0 then s
  else if !priority then
    { s with framebuffer := write_px s.framebuffer base color }
  else if s.bg_color_table (framebuffer_line_y + framebuffer_line_x) == 0 then
    { s with framebuffer := write_px s.framebuffer base color }
  else s

/-- Body of the inner 8-pixel loop of PPU::render_sprite_layer at loop
index `x`: decode the 2-bit color index (mirrored when FlipX is set) and
hand it to the pixel write, skipping off-screen columns. -/
def PPU.sprite_px_at (attributes tile_index palette : Nat) (adjusted_x : Int)
    (framebuffer_line_y : Nat) (x : Nat) (s : PPU) : PPU :=
  let framebuffer_line_x : Int := adjusted_x + (x : Int)
  if 0 ≤ framebuffer_line_x ∧ framebuffer_line_x < 160 then
    let low_byte := s.vram tile_index
    let high_byte := s.vram (tile_index + 1)
    let bit :=
      if attributes &&& ObjectAttributeFlags.FlipX != 0 then x &&& 7 else 7 - (x &&& 7)
    let low_bit := (low_byte >>> bit) &&& 1
    let high_bit := (high_byte >>> bit) &&& 1
    let pixel := (high_bit <<< 1) ||| low_bit
    s.sprite_pixel framebuffer_line_y framebuffer_line_x.toNat pixel palette
      (attributes &&& ObjectAttributeFlags.Priority != 0)
  else s

/-- The inner 8-pixel loop of PPU::render_sprite_layer. -/
def PPU.sprite_px_loop (attributes tile_index palette : Nat) (adjusted_x : Int)
    (framebuffer_line_y : Nat) : Nat → PPU → PPU
  | 0, s => s
  | n + 1, s =>
    PPU.sprite_px_at attributes tile_index palette adjusted_x framebuffer_line_y n
      (PPU.sprite_px_loop attributes tile_index palette adjusted_x framebuffer_line_y n s)

/-- Processing of the single scanned sprite at sorted index `idx`:
palette select, low-tile-bit forcing for 16-pixel sprites (written back to
the stored entry, as the C++ mutates through a reference), row resolution
with vertical mirroring, then the 8-pixel loop. -/
def PPU.process_object (height idx : Nat) (s : PPU) : PPU :=
  let object := s.objects_on_scanline.getD idx default
  let palette :=
    if object.attributes &&& ObjectAttributeFlags.Palette != 0 then s.object_palette_1
    else s.object_palette_0
  let object :=
    if height == 16 then { object with tile := object.tile &&& 0xFE } else object
  let s := { s with objects_on_scanline := s.objects_on_scanline.set idx object }
  let obj_y : Int := (object.y : Int) - 16
  let tile_index : Nat :=
    if object.attributes &&& ObjectAttributeFlags.FlipY != 0 then
      (0x8000 &&& 0x1FFF) + object.tile * 16 +
        (((height : Int) - ((s.line_y : Int) - obj_y) - 1).toNat * 2)
    else
      (0x8000 &&& 0x1FFF) + object.tile * 16 +
        ((((s.line_y : Int) - obj_y).tmod (height : Int)).toNat * 2)
  let adjusted_x : Int := (object.x : Int) - 8
  PPU.sprite_px_loop object.attributes tile_index palette adjusted_x
    (s.line_y * LCD_WIDTH) 8 s

/-- The outer sprite loop: `obj_loop height k s` processes sorted indices
`k-1, k-2, …, 0` in that order (the C++ iterates
`objects_on_scanline[num - 1 - i]`, so the highest X is drawn first and
the lowest X last). -/
def PPU.obj_loop (height : Nat) : Nat → PPU → PPU
  | 0, s => s
  | k + 1, s => PPU.obj_loop height k (PPU.process_object height k s)

/-- PPU::render_sprite_layer. -/
def PPU.render_sprite_layer (s : PPU) : PPU :=
  let height := if s.lcd_control &&& LCDControlFlags.SpriteSize != 0 then 16 else 8
  if (s.lcd_control &&& LCDControlFlags.SpriteEnable != 0) &&
      (s.render_flags &&& DisplayRenderFlags.Objects != 0) then
    PPU.obj_loop height s.num_obj_on_scanline s
  else s

/-- PPU::render_scanline. -/
def PPU.render_scanline (s : PPU) : PPU :=
  let s := s.render_bg_layer
  let s :=
    if s.render_flags &&& DisplayRenderFlags.Window != 0 then s.render_window_layer else s
  if s.render_flags &&& DisplayRenderFlags.Objects != 0 then s.render_sprite_layer else s

/-- The mode-dispatch switch of PPU::step. -/
def PPU.mode_dispatch (s : PPU) (allow_interrupt : Bool) : PPU :=
  match s.mode with
  | PPUState.HBlank =>
    if 204 ≤ s.cycles then
      let s := { s with cycles := s.cycles - 204, line_y := (s.line_y + 1) % 256 }
      if s.line_y == 144 then
        let s := { s with mode := PPUState.VBlank }
        let s := s.request_interrupt INT_VBLANK_BIT
        if s.check_stat EnableVBlankInt && allow_interrupt then
          s.request_interrupt INT_LCD_STAT_BIT
        else s
      else
        let s := { s with mode := PPUState.OAMSearch }
        if s.check_stat EnableOAMInt && allow_interrupt then
          s.request_interrupt INT_LCD_STAT_BIT
        else s
    else s
  | PPUState.VBlank =>
    if 456 ≤ s.cycles then
      let s := { s with line_y := (s.line_y + 1) % 256, cycles := s.cycles - 456 }
      if 153 < s.line_y then
        let s := { s with framebuffer_complete := s.framebuffer,
                          mode := PPUState.OAMSearch }
        let s :=
          if s.check_stat EnableOAMInt && allow_interrupt then
            s.request_interrupt INT_LCD_STAT_BIT
          else s
        { s with line_y := 0, window_line_y := 0, window_draw_flag := false }
      else s
    else s
  | PPUState.OAMSearch =>
    if 80 ≤ s.cycles then
      let s := s.scan_oam
      { s with cycles := s.cycles - 80, mode := PPUState.DrawScanline }
    else s
  | PPUState.DrawScanline =>
    if 172 ≤ s.cycles then
      let s := { s with cycles := s.cycles - 172, mode := PPUState.HBlank }
      let s :=
        if s.check_stat EnableHBlankInt && allow_interrupt then
          s.request_interrupt INT_LCD_STAT_BIT
        else s
      s.render_scanline
    else s

/-- Body of PPU::step after the display-disabled and re-enable preludes:
accumulate the cycles (32-bit), compute the STAT-blocking gate once,
dispatch on the mode, run the LY/LYC comparator, latch the window flag,
and refresh the mode bits of the status register. -/
def PPU.step_main (s : PPU) (accumulated_cycles : Nat) : PPU :=
  let s := { s with cycles := (s.cycles + accumulated_cycles) % 4294967296 }
  let allow_interrupt := !s.stat_any
  let s := s.mode_dispatch allow_interrupt
  let s := s.check_ly_lyc allow_interrupt
  let s := if s.window_y == s.line_y then { s with window_draw_flag := true } else s
  { s with status := (s.status &&& (255 ^^^ ModeFlag)) ||| (s.mode.toNat &&& 3) }

/-- PPU::step. -/
def PPU.step (s : PPU) (accumulated_cycles : Nat) : PPU :=
  if s.lcd_control &&& LCDControlFlags.DisplayEnable == 0 then
    { s with mode := PPUState.HBlank,
             status := (s.status &&& (255 ^^^ ModeFlag)) ||| (PPUState.HBlank.toNat &&& 3),
             previously_disabled := true }
  else
    let s :=
      if s.previously_disabled then { s.reset false with previously_disabled := false }
      else s
    s.step_main accumulated_cycles

/-- Repeated single-cycle advancing: `stepN n s` calls `step 1` a total of
`n` times. -/
def PPU.stepN : Nat → PPU → PPU
  | 0, s => s
  | n + 1, s => PPU.stepN n (s.step 1)

/-- The interrupt requests issued during the single call `step n`. -/
def PPU.new_reqs (s : PPU) (n : Nat) : List Nat :=
  (s.step n).req.drop s.req.length

/-- The fixed cycle budget of each mode in PPU::step. -/
def PPU.budget : PPUState → Nat
  | PPUState.HBlank => 204
  | PPUState.VBlank => 456
  | PPUState.OAMSearch => 80
  | PPUState.DrawScanline => 172

/-- The configuration part of the state: video memory, sprite memory and
every register PPU::step never writes (control, scrolls, window position,
palettes, LYC, render-layer mask). -/
def PPU.cfg (s : PPU) :
    (Nat → Nat) × (Nat → Nat) × Nat × Nat × Nat × Nat × Nat × Nat × Nat × Nat × Nat × Nat :=
  (s.vram, s.oam, s.lcd_control, s.background_palette, s.object_palette_0,
   s.object_palette_1, s.screen_scroll_x, s.screen_scroll_y, s.window_x, s.window_y,
   s.line_y_compare, s.render_flags)

/-- A concrete all-zero PPU state used by the concrete instances below. -/
def initPPU : PPU :=
  { status := 0, lcd_control := 0, background_palette := 0, object_palette_0 := 0,
    object_palette_1 := 0, screen_scroll_y := 0, screen_scroll_x := 0, window_y := 0,
    window_x := 0, line_y_compare := 0, vram := fun _ => 0, oam := fun _ => 0,
    framebuffer := fun _ => 0, framebuffer_complete := fun _ => 0,
    bg_color_table := fun _ => 0, objects_on_scanline := [], num_obj_on_scanline := 0,
    mode := PPUState.HBlank, window_draw_flag := false, previously_disabled := false,
    cycles := 0, line_y := 0, window_line_y := 0, render_flags := 7, req := [] }

/-! ## Basic projection lemmas -/

theorem set_stat_false (s : PPU) (f : Nat) :
    s.set_stat f false = { s with status := s.status &&& (255 ^^^ f) } := rfl

theorem set_stat_true (s : PPU) (f : Nat) :
    s.set_stat f true = { s with status := s.status ||| f } := rfl

theorem set_stat_proj (s : PPU) (f : Nat) (v : Bool) :
    (s.set_stat f v).mode = s.mode ∧ (s.set_stat f v).line_y = s.line_y ∧
    (s.set_stat f v).cycles = s.cycles ∧ (s.set_stat f v).req = s.req ∧
    (s.set_stat f v).previously_disabled = s.previously_disabled ∧
    (s.set_stat f v).window_draw_flag = s.window_draw_flag ∧
    (s.set_stat f v).framebuffer = s.framebuffer ∧
    (s.set_stat f v).framebuffer_complete = s.framebuffer_complete ∧
    (s.set_stat f v).bg_color_table = s.bg_color_table ∧
    (s.set_stat f v).window_line_y = s.window_line_y ∧
    (s.set_stat f v).num_obj_on_scanline = s.num_obj_on_scanline ∧
    (s.set_stat f v).objects_on_scanline = s.objects_on_scanline ∧
    (s.set_stat f v).cfg = s.cfg := by
  unfold PPU.set_stat
  split <;> simp [PPU.cfg]

theorem request_interrupt_proj (s : PPU) (k : Nat) :
    (s.request_interrupt k).mode = s.mode ∧ (s.request_interrupt k).line_y = s.line_y ∧
    (s.request_interrupt k).cycles = s.cycles ∧
    (s.request_interrupt k).status = s.status ∧
    (s.request_interrupt k).previously_disabled = s.previously_disabled ∧
    (s.request_interrupt k).window_draw_flag = s.window_draw_flag ∧
    (s.request_interrupt k).framebuffer = s.framebuffer ∧
    (s.request_interrupt k).framebuffer_complete = s.framebuffer_complete ∧
    (s.request_interrupt k).bg_color_table = s.bg_color_table ∧
    (s.request_interrupt k).window_line_y = s.window_line_y ∧
    (s.request_interrupt k).num_obj_on_scanline = s.num_obj_on_scanline ∧
    (s.request_interrupt k).objects_on_scanline = s.objects_on_scanline ∧
    (s.request_interrupt k).req = s.req ++ [k] ∧
    (s.request_interrupt k).cfg = s.cfg := by
  unfold PPU.request_interrupt
  simp [PPU.cfg]

theorem check_ly_lyc_proj (s : PPU) (a : Bool) :
    (s.check_ly_lyc a).mode = s.mode ∧ (s.check_ly_lyc a).line_y = s.line_y ∧
    (s.check_ly_lyc a).cycles = s.cycles ∧
    (s.check_ly_lyc a).previously_disabled = s.previously_disabled ∧
    (s.check_ly_lyc a).window_draw_flag = s.window_draw_flag ∧
    (s.check_ly_lyc a).framebuffer = s.framebuffer ∧
    (s.check_ly_lyc a).framebuffer_complete = s.framebuffer_complete ∧
    (s.check_ly_lyc a).bg_color_table = s.bg_color_table ∧
    (s.check_ly_lyc a).window_line_y = s.window_line_y ∧
    (s.check_ly_lyc a).num_obj_on_scanline = s.num_obj_on_scanline ∧
    (s.check_ly_lyc a).objects_on_scanline = s.objects_on_scanline ∧
    (s.check_ly_lyc a).cfg = s.cfg := by
  simp only [PPU.check_ly_lyc, set_stat_false, set_stat_true]
  split
  · split <;> simp [PPU.cfg, PPU.request_interrupt]
  · simp [PPU.cfg]

theorem scan_oam_proj (s : PPU) :
    s.scan_oam.mode = s.mode ∧ s.scan_oam.line_y = s.line_y ∧
    s.scan_oam.cycles = s.cycles ∧ s.scan_oam.status = s.status ∧
    s.scan_oam.previously_disabled = s.previously_disabled ∧
    s.scan_oam.window_draw_flag = s.window_draw_flag ∧
    s.scan_oam.framebuffer = s.framebuffer ∧
    s.scan_oam.framebuffer_complete = s.framebuffer_complete ∧
    s.scan_oam.bg_color_table = s.bg_color_table ∧
    s.scan_oam.window_line_y = s.window_line_y ∧
    s.scan_oam.req = s.req ∧ s.scan_oam.cfg = s.cfg := by
  unfold PPU.scan_oam
  simp [PPU.cfg]

theorem render_bg_pixel_proj (tma tda : Nat) (s : PPU) (i : Nat) :
    (PPU.render_bg_pixel tma tda s i).mode = s.mode ∧
    (PPU.render_bg_pixel tma tda s i).line_y = s.line_y ∧
    (PPU.render_bg_pixel tma tda s i).cycles = s.cycles ∧
    (PPU.render_bg_pixel tma tda s i).status = s.status ∧
    (PPU.render_bg_pixel tma tda s i).previously_disabled = s.previously_disabled ∧
    (PPU.render_bg_pixel tma tda s i).window_draw_flag = s.window_draw_flag ∧
    (PPU.render_bg_pixel tma tda s i).framebuffer_complete = s.framebuffer_complete ∧
    (PPU.render_bg_pixel tma tda s i).window_line_y = s.window_line_y ∧
    (PPU.render_bg_pixel tma tda s i).num_obj_on_scanline = s.num_obj_on_scanline ∧
    (PPU.render_bg_pixel tma tda s i).objects_on_scanline = s.objects_on_scanline ∧
    (PPU.render_bg_pixel tma tda s i).req = s.req ∧
    (PPU.render_bg_pixel tma tda s i).cfg = s.cfg := by
  unfold PPU.render_bg_pixel
  simp [PPU.cfg]

theorem bg_loop_proj (tma tda : Nat) (n : Nat) (s : PPU) :
    (PPU.bg_loop tma tda n s).mode = s.mode ∧
    (PPU.bg_loop tma tda n s).line_y = s.line_y ∧
    (PPU.bg_loop tma tda n s).cycles = s.cycles ∧
    (PPU.bg_loop tma tda n s).status = s.status ∧
    (PPU.bg_loop tma tda n s).previously_disabled = s.previously_disabled ∧
    (PPU.bg_loop tma tda n s).window_draw_flag = s.window_draw_flag ∧
    (PPU.bg_loop tma tda n s).framebuffer_complete = s.framebuffer_complete ∧
    (PPU.bg_loop tma tda n s).window_line_y = s.window_line_y ∧
    (PPU.bg_loop tma tda n s).num_obj_on_scanline = s.num_obj_on_scanline ∧
    (PPU.bg_loop tma tda n s).objects_on_scanline = s.objects_on_scanline ∧
    (PPU.bg_loop tma tda n s).req = s.req ∧
    (PPU.bg_loop tma tda n s).cfg = s.cfg := by
  induction n with
  | zero => simp [PPU.bg_loop]
  | succ n ih =>
    have h := render_bg_pixel_proj tma tda (PPU.bg_loop tma tda n s) n
    simp only [PPU.bg_loop]
    obtain ⟨h1, h2, h3, h4, h5, h6, h7, h8, h9, h10, h11, h12⟩ := h
    obtain ⟨g1, g2, g3, g4, g5, g6, g7, g8, g9, g10, g11, g12⟩ := ih
    exact ⟨h1.trans g1, h2.trans g2, h3.trans g3, h4.trans g4, h5.trans g5, h6.trans g6,
      h7.trans g7, h8.trans g8, h9.trans g9, h10.trans g10, h11.trans g11, h12.trans g12⟩

theorem render_bg_layer_proj (s : PPU) :
    s.render_bg_layer.mode = s.mode ∧ s.render_bg_layer.line_y = s.line_y ∧
    s.render_bg_layer.cycles = s.cycles ∧ s.render_bg_layer.status = s.status ∧
    s.render_bg_layer.previously_disabled = s.previously_disabled ∧
    s.render_bg_layer.window_draw_flag = s.window_draw_flag ∧
    s.render_bg_layer.framebuffer_complete = s.framebuffer_complete ∧
    s.render_bg_layer.window_line_y = s.window_line_y ∧
    s.render_bg_layer.num_obj_on_scanline = s.num_obj_on_scanline ∧
    s.render_bg_layer.objects_on_scanline = s.objects_on_scanline ∧
    s.render_bg_layer.req = s.req ∧ s.render_bg_layer.cfg = s.cfg := by
  unfold PPU.render_bg_layer
  exact bg_loop_proj _ _ 160 s


/-- The fields of the state that the whole scanline-rendering pipeline
leaves untouched: `Rkeep s t` says `t` agrees with `s` on all of them. -/
def Rkeep (s t : PPU) : Prop :=
  t.mode = s.mode ∧ t.line_y = s.line_y ∧ t.cycles = s.cycles ∧ t.status = s.status ∧
  t.previously_disabled = s.previously_disabled ∧
  t.window_draw_flag = s.window_draw_flag ∧
  t.framebuffer_complete = s.framebuffer_complete ∧ t.req = s.req ∧ t.cfg = s.cfg

theorem Rkeep.refl (s : PPU) : Rkeep s s := by
  simp [Rkeep]

theorem Rkeep.trans {s t u : PPU} (h1 : Rkeep s t) (h2 : Rkeep t u) : Rkeep s u := by
  obtain ⟨a1, a2, a3, a4, a5, a6, a7, a8, a9⟩ := h1
  obtain ⟨b1, b2, b3, b4, b5, b6, b7, b8, b9⟩ := h2
  exact ⟨b1.trans a1, b2.trans a2, b3.trans a3, b4.trans a4, b5.trans a5, b6.trans a6,
    b7.trans a7, b8.trans a8, b9.trans a9⟩

theorem rk_paint (s : PPU) (g f : Nat → Nat) :
    Rkeep s { s with bg_color_table := g, framebuffer := f } := by
  simp [Rkeep, PPU.cfg]

theorem rk_fb (s : PPU) (f : Nat → Nat) : Rkeep s { s with framebuffer := f } := by
  simp [Rkeep, PPU.cfg]

theorem rk_wly (s : PPU) (v : Nat) : Rkeep s { s with window_line_y := v } := by
  simp [Rkeep, PPU.cfg]

theorem rk_objs (s : PPU) (l : List Object) :
    Rkeep s { s with objects_on_scanline := l } := by
  simp [Rkeep, PPU.cfg]

theorem rk_scan_upd (s : PPU) (n : Nat) (l : List Object) :
    Rkeep s { s with num_obj_on_scanline := n, objects_on_scanline := l } := by
  simp [Rkeep, PPU.cfg]

theorem rk_render_bg_pixel (tma tda : Nat) (s : PPU) (i : Nat) :
    Rkeep s (PPU.render_bg_pixel tma tda s i) := by
  unfold PPU.render_bg_pixel
  exact rk_paint _ _ _

theorem rk_bg_loop (tma tda : Nat) (n : Nat) (s : PPU) :
    Rkeep s (PPU.bg_loop tma tda n s) := by
  induction n with
  | zero => exact Rkeep.refl s
  | succ n ih => exact ih.trans (rk_render_bg_pixel tma tda _ n)

theorem rk_render_bg_layer (s : PPU) : Rkeep s s.render_bg_layer := by
  unfold PPU.render_bg_layer
  exact rk_bg_loop _ _ 160 s

theorem rk_render_window_pixel (tma tda : Nat) (p : PPU × Nat) (i : Nat) :
    Rkeep p.1 (PPU.render_window_pixel tma tda p i).1 := by
  unfold PPU.render_window_pixel
  dsimp only
  split
  · exact rk_paint _ _ _
  · exact Rkeep.refl _

theorem rk_win_loop (tma tda : Nat) (n : Nat) (p : PPU × Nat) :
    Rkeep p.1 (PPU.win_loop tma tda n p).1 := by
  induction n with
  | zero => exact Rkeep.refl _
  | succ n ih => exact ih.trans (rk_render_window_pixel tma tda _ n)

theorem rk_render_window_layer (s : PPU) : Rkeep s s.render_window_layer := by
  unfold PPU.render_window_layer
  dsimp only
  by_cases h : (s.lcd_control &&& LCDControlFlags.WindowEnable != 0 && s.window_draw_flag &&
      s.render_flags &&& DisplayRenderFlags.Window != 0) = true
  · rw [if_pos h]
    exact (rk_win_loop _ _ 160 (s, 0)).trans (rk_wly _ _)
  · rw [if_neg h]
    exact Rkeep.refl _

theorem rk_sprite_pixel (s : PPU) (fly flx pixel palette : Nat) (prio : Bool) :
    Rkeep s (s.sprite_pixel fly flx pixel palette prio) := by
  unfold PPU.sprite_pixel
  split
  · exact Rkeep.refl _
  split
  · exact rk_fb _ _
  split
  · exact rk_fb _ _
  · exact Rkeep.refl _

theorem rk_sprite_px_at (attrs ti palette : Nat) (ax : Int) (fly x : Nat) (s : PPU) :
    Rkeep s (PPU.sprite_px_at attrs ti palette ax fly x s) := by
  unfold PPU.sprite_px_at
  dsimp only
  by_cases h : 0 ≤ ax + (x : Int) ∧ ax + (x : Int) < 160
  · rw [if_pos h]
    exact rk_sprite_pixel _ _ _ _ _ _
  · rw [if_neg h]
    exact Rkeep.refl _

theorem rk_sprite_px_loop (attrs ti palette : Nat) (ax : Int) (fly n : Nat) (s : PPU) :
    Rkeep s (PPU.sprite_px_loop attrs ti palette ax fly n s) := by
  induction n with
  | zero => exact Rkeep.refl _
  | succ n ih => exact ih.trans (rk_sprite_px_at attrs ti palette ax fly n _)

theorem rk_process_object (height idx : Nat) (s : PPU) :
    Rkeep s (PPU.process_object height idx s) := by
  unfold PPU.process_object
  exact (rk_objs _ _).trans (rk_sprite_px_loop _ _ _ _ _ 8 _)

theorem rk_obj_loop (height : Nat) (k : Nat) (s : PPU) :
    Rkeep s (PPU.obj_loop height k s) := by
  induction k generalizing s with
  | zero => exact Rkeep.refl _
  | succ k ih => exact (rk_process_object height k s).trans (ih _)

theorem rk_render_sprite_layer (s : PPU) : Rkeep s s.render_sprite_layer := by
  unfold PPU.render_sprite_layer
  dsimp only
  split
  · exact rk_obj_loop _ _ _
  · exact Rkeep.refl _

theorem rk_window_opt {s : PPU} (t : PPU) (h : Rkeep s t) :
    Rkeep s
      (if (t.render_flags &&& DisplayRenderFlags.Window != 0) = true
       then t.render_window_layer else t) := by
  split
  · exact h.trans (rk_render_window_layer t)
  · exact h

theorem rk_sprite_opt {s : PPU} (t : PPU) (h : Rkeep s t) :
    Rkeep s
      (if (t.render_flags &&& DisplayRenderFlags.Objects != 0) = true
       then t.render_sprite_layer else t) := by
  split
  · exact h.trans (rk_render_sprite_layer t)
  · exact h

theorem rk_render_scanline (s : PPU) : Rkeep s s.render_scanline :=
  rk_sprite_opt _ (rk_window_opt _ (rk_render_bg_layer s))

theorem render_scanline_cfg (s : PPU) : s.render_scanline.cfg = s.cfg :=
  (rk_render_scanline s).2.2.2.2.2.2.2.2

theorem scan_oam_cfg (s : PPU) : s.scan_oam.cfg = s.cfg :=
  (scan_oam_proj s).2.2.2.2.2.2.2.2.2.2.2

theorem cfg_check_ly_lyc (s : PPU) (a : Bool) : (s.check_ly_lyc a).cfg = s.cfg :=
  (check_ly_lyc_proj s a).2.2.2.2.2.2.2.2.2.2.2

theorem cfg_mode_dispatch (s : PPU) (a : Bool) : (s.mode_dispatch a).cfg = s.cfg := by
  unfold PPU.mode_dispatch
  cases hm : s.mode <;> dsimp only <;> split_ifs <;>
    first
      | rfl
      | (rw [render_scanline_cfg]; rfl)

theorem cfg_set_status (s : PPU) (v : Nat) : ({ s with status := v } : PPU).cfg = s.cfg :=
  rfl

theorem cfg_set_wdf (s : PPU) (v : Bool) :
    ({ s with window_draw_flag := v } : PPU).cfg = s.cfg := rfl

theorem cfg_step_main (t : PPU) (n : Nat) : (t.step_main n).cfg = t.cfg := by
  unfold PPU.step_main
  dsimp only
  rw [cfg_set_status]
  split
  · rw [cfg_set_wdf, cfg_check_ly_lyc, cfg_mode_dispatch]
    rfl
  · rw [cfg_check_ly_lyc, cfg_mode_dispatch]
    rfl

theorem cfg_step (s : PPU) (n : Nat) : (s.step n).cfg = s.cfg := by
  unfold PPU.step
  split
  · rfl
  · split
    · rw [cfg_step_main]
      rfl
    · rw [cfg_step_main]

/-- C10: an advance call never modifies VRAM, OAM, or the configuration
registers (control, scrolls, window position, the three palettes, LYC, or
the render-layer mask); only the dynamic state may change. -/
theorem spec_C10_advance_preserves_memories_and_registers (s : PPU) (n : Nat) :
    (s.step n).vram = s.vram ∧ (s.step n).oam = s.oam ∧
    (s.step n).lcd_control = s.lcd_control ∧
    (s.step n).background_palette = s.background_palette ∧
    (s.step n).object_palette_0 = s.object_palette_0 ∧
    (s.step n).object_palette_1 = s.object_palette_1 ∧
    (s.step n).screen_scroll_x = s.screen_scroll_x ∧
    (s.step n).screen_scroll_y = s.screen_scroll_y ∧
    (s.step n).window_x = s.window_x ∧ (s.step n).window_y = s.window_y ∧
    (s.step n).line_y_compare = s.line_y_compare ∧
    (s.step n).render_flags = s.render_flags := by
  have h := cfg_step s n
  simpa [PPU.cfg, Prod.mk.injEq] using h

theorem step_disabled (s : PPU) (n : Nat)
    (h : s.lcd_control &&& LCDControlFlags.DisplayEnable = 0) :
    s.step n = { s with mode := PPUState.HBlank,
                        status := s.status &&& (255 ^^^ ModeFlag),
                        previously_disabled := true } := by
  unfold PPU.step
  rw [if_pos (by simpa using h)]
  simp [PPUState.toNat]

theorem step_reenable (s : PPU) (n : Nat)
    (h : s.lcd_control &&& LCDControlFlags.DisplayEnable ≠ 0)
    (hp : s.previously_disabled = true) :
    s.step n = PPU.step_main { s.reset false with previously_disabled := false } n := by
  unfold PPU.step
  rw [if_neg (by simpa using h)]
  dsimp only
  rw [if_pos hp]

theorem step_enabled (s : PPU) (n : Nat)
    (h : s.lcd_control &&& LCDControlFlags.DisplayEnable ≠ 0)
    (hp : s.previously_disabled = false) :
    s.step n = s.step_main n := by
  unfold PPU.step
  rw [if_neg (by simpa using h)]
  dsimp only
  rw [if_neg (by simp [hp])]

/-- C8: with the display-enable bit clear, advance forces HBlank, clears
the 2-bit mode field of the status register, sets the disabled flag and
changes nothing else (no cycles consumed); on the first call after
re-enabling it runs the normal step body on the soft-reinitialized state
(transient counters cleared, registers preserved). -/
theorem spec_C8_display_disable_freeze_and_reenable_reinit (s : PPU) (n : Nat) :
    (s.lcd_control &&& LCDControlFlags.DisplayEnable = 0 →
      s.step n = { s with mode := PPUState.HBlank,
                          status := s.status &&& (255 ^^^ ModeFlag),
                          previously_disabled := true }) ∧
    (s.lcd_control &&& LCDControlFlags.DisplayEnable ≠ 0 →
      s.previously_disabled = true →
      s.step n = PPU.step_main { s.reset false with previously_disabled := false } n) :=
  ⟨fun h => step_disabled s n h, fun h hp => step_reenable s n h hp⟩

/-- Concrete state with the display freshly re-enabled. -/
def reenabledPPU : PPU :=
  { initPPU with lcd_control := 0x91, previously_disabled := true }

/-- Witness for C8 at two concrete states: one with the display disabled,
one freshly re-enabled. -/
theorem spec_C8_witness :
    (initPPU.step 4 =
      { initPPU with mode := PPUState.HBlank,
                     status := initPPU.status &&& (255 ^^^ ModeFlag),
                     previously_disabled := true }) ∧
    (reenabledPPU.step 4 =
      PPU.step_main { reenabledPPU.reset false with previously_disabled := false } 4) :=
  ⟨(spec_C8_display_disable_freeze_and_reenable_reinit initPPU 4).1 (by decide),
   (spec_C8_display_disable_freeze_and_reenable_reinit reenabledPPU 4).2 (by decide)
     (by decide)⟩

/-- The state produced when a sprite pixel is actually drawn: the four
framebuffer bytes of the screen position receive the palette-mapped
color, everything else is untouched. -/
def sprite_pixel_written (s : PPU) (fly flx pixel palette : Nat) : PPU :=
  let color := color_table ((palette >>> (2 * pixel)) &&& 3)
  { s with framebuffer := write_px s.framebuffer ((fly + flx) * COLOR_DEPTH) color }

/-- C5: in the sprite pass, a pixel with 2-bit color index 0 never
overwrites the framebuffer regardless of the priority attribute; a
non-zero pixel with the priority attribute clear is drawn
unconditionally; a non-zero pixel with the priority attribute set is
drawn exactly when the background-shadow value at that screen position
is 0. -/
theorem spec_C5_sprite_pixel_priority_rules (s : PPU) (fly flx pixel palette : Nat)
    (prio : Bool) :
    (pixel = 0 → s.sprite_pixel fly flx pixel palette prio = s) ∧
    (pixel ≠ 0 → prio = false →
      s.sprite_pixel fly flx pixel palette prio = sprite_pixel_written s fly flx pixel palette) ∧
    (pixel ≠ 0 → prio = true → s.bg_color_table (fly + flx) = 0 →
      s.sprite_pixel fly flx pixel palette prio = sprite_pixel_written s fly flx pixel palette) ∧
    (pixel ≠ 0 → prio = true → s.bg_color_table (fly + flx) ≠ 0 →
      s.sprite_pixel fly flx pixel palette prio = s) := by
  refine ⟨fun h0 => ?_, fun hnz hp => ?_, fun hnz hp hbg => ?_, fun hnz hp hbg => ?_⟩ <;>
    simp_all [PPU.sprite_pixel, sprite_pixel_written]

/-- Concrete state whose background-shadow table is 0 at index 37 and 1
everywhere else. -/
def bgShadowPPU : PPU :=
  { initPPU with bg_color_table := fun j => if j = 37 then 0 else 1 }

/-- Witness for C5: all four cases at concrete inputs. -/
theorem spec_C5_witness :
    (PPU.sprite_pixel bgShadowPPU 0 37 0 228 true = bgShadowPPU) ∧
    (PPU.sprite_pixel bgShadowPPU 0 37 2 228 false =
      sprite_pixel_written bgShadowPPU 0 37 2 228) ∧
    (PPU.sprite_pixel bgShadowPPU 0 37 2 228 true =
      sprite_pixel_written bgShadowPPU 0 37 2 228) ∧
    (PPU.sprite_pixel bgShadowPPU 0 5 2 228 true = bgShadowPPU) :=
  ⟨(spec_C5_sprite_pixel_priority_rules bgShadowPPU 0 37 0 228 true).1 rfl,
   (spec_C5_sprite_pixel_priority_rules bgShadowPPU 0 37 2 228 false).2.1 (by decide) rfl,
   (spec_C5_sprite_pixel_priority_rules bgShadowPPU 0 37 2 228 true).2.2.1 (by decide) rfl
     (by decide),
   (spec_C5_sprite_pixel_priority_rules bgShadowPPU 0 5 2 228 true).2.2.2 (by decide) rfl
     (by decide)⟩

theorem bg_loop_cfg_fields (tma tda n : Nat) (s : PPU) :
    (PPU.bg_loop tma tda n s).lcd_control = s.lcd_control ∧
    (PPU.bg_loop tma tda n s).render_flags = s.render_flags ∧
    (PPU.bg_loop tma tda n s).background_palette = s.background_palette := by
  have hcfg := (bg_loop_proj tma tda n s).2.2.2.2.2.2.2.2.2.2.2
  simp only [PPU.cfg, Prod.mk.injEq] at hcfg
  exact ⟨hcfg.2.2.1, hcfg.2.2.2.2.2.2.2.2.2.2.2, hcfg.2.2.2.1⟩

theorem render_bg_pixel_bgct_other (tma tda : Nat) (t : PPU) (i j : Nat)
    (hj : j ≠ t.line_y * LCD_WIDTH + i) :
    (PPU.render_bg_pixel tma tda t i).bg_color_table j = t.bg_color_table j := by
  unfold PPU.render_bg_pixel
  dsimp only
  simp [upd, hj]

theorem render_bg_pixel_fb_other (tma tda : Nat) (t : PPU) (i j : Nat)
    (hj : j < (t.line_y * LCD_WIDTH + i) * COLOR_DEPTH ∨
          (t.line_y * LCD_WIDTH + i) * COLOR_DEPTH + 4 ≤ j) :
    (PPU.render_bg_pixel tma tda t i).framebuffer j = t.framebuffer j := by
  unfold PPU.render_bg_pixel
  dsimp only
  simp only [LCD_WIDTH, COLOR_DEPTH] at hj ⊢
  simp only [write_px]
  rw [if_neg (by omega)]

theorem render_bg_pixel_disabled_at (tma tda : Nat) (t : PPU) (i : Nat)
    (hdis : t.lcd_control &&& LCDControlFlags.BGEnable = 0 ∨
            t.render_flags &&& DisplayRenderFlags.Background = 0) :
    (PPU.render_bg_pixel tma tda t i).bg_color_table (t.line_y * LCD_WIDTH + i) = 0 ∧
    ∀ k, k < 4 →
      (PPU.render_bg_pixel tma tda t i).framebuffer
          ((t.line_y * LCD_WIDTH + i) * COLOR_DEPTH + k) =
        (color_table (t.background_palette &&& 3)).getD k 0 := by
  unfold PPU.render_bg_pixel
  dsimp only
  have hd : ((t.lcd_control &&& LCDControlFlags.BGEnable == 0) ||
      (t.render_flags &&& DisplayRenderFlags.Background == 0)) = true := by
    rcases hdis with h | h <;> simp [h]
  rw [hd]
  constructor
  · simp [upd]
  · intro k hk
    simp only [write_px, if_true]
    rw [if_pos (by omega)]
    congr 1
    omega

theorem bg_loop_disabled_spec (tma tda : Nat) (s : PPU)
    (hdis : s.lcd_control &&& LCDControlFlags.BGEnable = 0 ∨
            s.render_flags &&& DisplayRenderFlags.Background = 0) :
    ∀ n, ∀ i, i < n →
      (PPU.bg_loop tma tda n s).bg_color_table (s.line_y * LCD_WIDTH + i) = 0 ∧
      ∀ k, k < 4 →
        (PPU.bg_loop tma tda n s).framebuffer
            ((s.line_y * LCD_WIDTH + i) * COLOR_DEPTH + k) =
          (color_table (s.background_palette &&& 3)).getD k 0 := by
  intro n
  induction n with
  | zero => intro i hi; exact absurd hi (by omega)
  | succ n ih =>
    intro i hi
    have hline := (bg_loop_proj tma tda n s).2.1
    obtain ⟨hlcd, hrf, hpal⟩ := bg_loop_cfg_fields tma tda n s
    have hstep : PPU.bg_loop tma tda (n + 1) s =
        PPU.render_bg_pixel tma tda (PPU.bg_loop tma tda n s) n := rfl
    rcases Nat.lt_succ_iff_lt_or_eq.mp hi with hlt | heq
    · obtain ⟨hb, hf⟩ := ih i hlt
      refine ⟨?_, fun k hk => ?_⟩
      · rw [hstep, render_bg_pixel_bgct_other]
        · exact hb
        · rw [hline]
          have : i ≠ n := by omega
          simp only [LCD_WIDTH]
          omega
      · rw [hstep, render_bg_pixel_fb_other]
        · exact hf k hk
        · rw [hline]
          simp only [LCD_WIDTH, COLOR_DEPTH]
          omega
    · subst heq
      have h := render_bg_pixel_disabled_at tma tda (PPU.bg_loop tma tda i s) i
        (by rw [hlcd, hrf]; exact hdis)
      rw [hline, hpal] at h
      exact ⟨h.1, fun k hk => h.2 k hk⟩

/-- C9: when the background layer is disabled (control-register
background-enable bit clear, or the render-layer mask excluding the
background), the background pass still paints every one of the 160 pixels
of the line with the color the background palette maps index 0 to, and
records 0 in the background-shadow table for each of them. -/
theorem spec_C9_bg_disabled_paints_palette_zero (s : PPU)
    (hdis : s.lcd_control &&& LCDControlFlags.BGEnable = 0 ∨
            s.render_flags &&& DisplayRenderFlags.Background = 0) :
    ∀ i, i < 160 →
      s.render_bg_layer.bg_color_table (s.line_y * LCD_WIDTH + i) = 0 ∧
      ∀ k, k < 4 →
        s.render_bg_layer.framebuffer ((s.line_y * LCD_WIDTH + i) * COLOR_DEPTH + k) =
          (color_table (s.background_palette &&& 3)).getD k 0 := by
  intro i hi
  unfold PPU.render_bg_layer
  exact bg_loop_disabled_spec _ _ s hdis 160 i hi

/-- Witness for C9 at the all-zero state (background-enable bit clear). -/
theorem spec_C9_witness :
    initPPU.lcd_control &&& LCDControlFlags.BGEnable = 0 ∧
    (∀ i, i < 160 →
      initPPU.render_bg_layer.bg_color_table (initPPU.line_y * LCD_WIDTH + i) = 0 ∧
      ∀ k, k < 4 →
        initPPU.render_bg_layer.framebuffer
            ((initPPU.line_y * LCD_WIDTH + i) * COLOR_DEPTH + k) =
          (color_table (initPPU.background_palette &&& 3)).getD k 0) :=
  ⟨by decide, spec_C9_bg_disabled_paints_palette_zero initPPU (Or.inl (by decide))⟩

theorem collect_objs_eq (height line : Nat) :
    ∀ (l : List Object) (total : Nat), total ≤ 10 →
      collect_objs height line l total =
        (l.filter (eligible_obj height line)).take (10 - total) := by
  intro l
  induction l with
  | nil => intro total _; simp [collect_objs]
  | cons o rest ih =>
    intro total htot
    by_cases h10 : total = 10
    · simp [collect_objs, h10]
    · rw [collect_objs]
      rw [if_neg (by simpa using h10)]
      by_cases he : eligible_obj height line o = true
      · have hs : 10 - total = (10 - (total + 1)) + 1 := by omega
        simp only [List.filter_cons, he, if_true, ih (total + 1) (by omega), hs,
          List.take_succ_cons]
      · simp only [List.filter_cons, he, if_false, ih total htot]
        simp [he]

theorem insert_obj_perm (o : Object) (l : List Object) :
    List.Perm (insert_obj o l) (o :: l) := by
  induction l with
  | nil => simp [insert_obj]
  | cons a t ih =>
    rw [insert_obj]
    split
    · exact List.Perm.refl _
    · exact (ih.cons a).trans (List.Perm.swap o a t)

theorem insert_obj_sorted (o : Object) (l : List Object)
    (h : l.Pairwise (fun a b => a.x ≤ b.x)) :
    (insert_obj o l).Pairwise (fun a b => a.x ≤ b.x) := by
  induction l with
  | nil => simp [insert_obj]
  | cons a t ih =>
    rw [insert_obj]
    rw [List.pairwise_cons] at h
    split
    · rename_i hlt
      rw [List.pairwise_cons]
      refine ⟨?_, List.pairwise_cons.mpr h⟩
      intro b hb
      rcases List.mem_cons.mp hb with hb | hb
      · subst hb
        omega
      · have := h.1 b hb
        omega
    · rename_i hge
      rw [List.pairwise_cons]
      refine ⟨?_, ih h.2⟩
      intro b hb
      have hm := (insert_obj_perm o t).mem_iff.mp hb
      rcases List.mem_cons.mp hm with hb2 | hb2
      · subst hb2
        omega
      · exact h.1 b hb2

theorem sorted_filter_none (v : Nat) (a : Object) (t : List Object)
    (h : (a :: t).Pairwise (fun p q => p.x ≤ q.x)) (hv : v < a.x) :
    (a :: t).filter (fun z => z.x == v) = [] := by
  rw [List.filter_eq_nil_iff]
  intro b hb
  rw [List.pairwise_cons] at h
  rcases List.mem_cons.mp hb with hb | hb
  · subst hb
    simp only [beq_iff_eq]
    omega
  · have := h.1 b hb
    simp only [beq_iff_eq]
    omega

theorem insert_obj_filter_eq (v : Nat) (o : Object) (ho : o.x = v) :
    ∀ l : List Object, l.Pairwise (fun a b => a.x ≤ b.x) →
      (insert_obj o l).filter (fun z => z.x == v) =
        l.filter (fun z => z.x == v) ++ [o] := by
  intro l
  induction l with
  | nil => simp [insert_obj, ho]
  | cons a t ih =>
    intro h
    rw [insert_obj]
    split
    · rename_i hlt
      rw [List.filter_cons_of_pos (by simpa using ho)]
      rw [sorted_filter_none v a t h (by omega)]
      rfl
    · rename_i hge
      rw [List.pairwise_cons] at h
      by_cases hav : a.x = v
      · rw [List.filter_cons_of_pos (by simpa using hav),
          List.filter_cons_of_pos (by simpa using hav), ih h.2]
        rfl
      · rw [List.filter_cons_of_neg (by simpa using hav),
          List.filter_cons_of_neg (by simpa using hav), ih h.2]

theorem insert_obj_filter_ne (v : Nat) (o : Object) (ho : o.x ≠ v) :
    ∀ l : List Object,
      (insert_obj o l).filter (fun z => z.x == v) = l.filter (fun z => z.x == v) := by
  intro l
  induction l with
  | nil => simp [insert_obj, ho]
  | cons a t ih =>
    rw [insert_obj]
    split
    · rw [List.filter_cons_of_neg (by simpa using ho)]
    · by_cases hav : a.x = v
      · rw [List.filter_cons_of_pos (by simpa using hav),
          List.filter_cons_of_pos (by simpa using hav), ih]
      · rw [List.filter_cons_of_neg (by simpa using hav),
          List.filter_cons_of_neg (by simpa using hav), ih]

theorem sort_objs_foldl_spec :
    ∀ (l acc : List Object), acc.Pairwise (fun a b => a.x ≤ b.x) →
      (l.foldl (fun acc o => insert_obj o acc) acc).Pairwise (fun a b => a.x ≤ b.x) ∧
      (∀ v, (l.foldl (fun acc o => insert_obj o acc) acc).filter (fun z => z.x == v) =
        acc.filter (fun z => z.x == v) ++ l.filter (fun z => z.x == v)) ∧
      List.Perm (l.foldl (fun acc o => insert_obj o acc) acc) (acc ++ l) := by
  intro l
  induction l with
  | nil =>
    intro acc h
    refine ⟨by simpa using h, fun v => by simp, by simp⟩
  | cons o rest ih =>
    intro acc h
    rw [List.foldl_cons]
    obtain ⟨ihs, ihf, ihp⟩ := ih (insert_obj o acc) (insert_obj_sorted o acc h)
    refine ⟨ihs, fun v => ?_, ?_⟩
    · rw [ihf v]
      by_cases ho : o.x = v
      · rw [insert_obj_filter_eq v o ho acc h,
          List.filter_cons_of_pos (by simpa using ho), List.append_assoc]
        rfl
      · rw [insert_obj_filter_ne v o ho acc,
          List.filter_cons_of_neg (by simpa using ho)]
    · refine ihp.trans ?_
      refine (List.Perm.append_right rest (insert_obj_perm o acc)).trans ?_
      exact List.perm_middle.symm

/-- The specification-side description of the selected sprite set: the
first ten entries, in OAM index order, whose `y - 16 ≤ line < y - 16 + height`. -/
def scan_selected (s : PPU) : List Object :=
  (((List.range 40).map s.oam_entry).filter
    (eligible_obj (if s.lcd_control &&& LCDControlFlags.SpriteSize != 0 then 16 else 8)
      s.line_y)).take 10

/-- C6: the OAM scan selects the eligible entries in original index
order, never more than 10 (entries beyond the 10th silently dropped), and
stably sorts the selection by ascending X: the result is a permutation of
the selection, pairwise sorted by X, and for every X value the entries
with that X appear exactly in their original OAM order. -/
theorem spec_C6_scan_oam_selection_and_order (s : PPU) :
    s.scan_oam.num_obj_on_scanline ≤ 10 ∧
    s.scan_oam.num_obj_on_scanline = (scan_selected s).length ∧
    List.Perm s.scan_oam.objects_on_scanline (scan_selected s) ∧
    s.scan_oam.objects_on_scanline.Pairwise (fun a b => a.x ≤ b.x) ∧
    (∀ v, s.scan_oam.objects_on_scanline.filter (fun z => z.x == v) =
      (scan_selected s).filter (fun z => z.x == v)) := by
  unfold PPU.scan_oam scan_selected
  dsimp only
  rw [collect_objs_eq _ _ _ 0 (by omega), Nat.sub_zero]
  rw [sort_objs]
  obtain ⟨hs, hf, hp⟩ := sort_objs_foldl_spec
    ((((List.range 40).map s.oam_entry).filter
      (eligible_obj (if s.lcd_control &&& LCDControlFlags.SpriteSize != 0 then 16 else 8)
        s.line_y)).take 10) [] (by simp)
  refine ⟨?_, rfl, ?_, hs, fun v => ?_⟩
  · rw [List.length_take]
    omega
  · simpa using hp
  · simpa using hf v

/-! ## Byte-level bit lemmas for the status register -/

theorem land_mod256 (x c : Nat) (hc : c < 256) : x &&& c = x % 256 &&& c := by
  apply Nat.eq_of_testBit_eq
  intro i
  rw [Nat.testBit_land, Nat.testBit_land]
  rcases Nat.lt_or_ge i 8 with hi | hi
  · rw [show (256 : Nat) = 2 ^ 8 from rfl, Nat.testBit_mod_two_pow]
    simp [hi]
  · have hcb : c.testBit i = false := by
      apply Nat.testBit_eq_false_of_lt
      calc c < 256 := hc
        _ = 2 ^ 8 := rfl
        _ ≤ 2 ^ i := Nat.pow_le_pow_right (by norm_num) hi
    simp [hcb]

set_option maxRecDepth 4000 in
theorem L_enable64 (x : Nat) : ((x &&& 251) ||| 4) &&& 64 = x &&& 64 := by
  have key : ∀ y, y < 256 → ((y &&& 251) ||| 4) &&& 64 = y &&& 64 := by decide
  rw [land_mod256 x 251 (by norm_num), land_mod256 x 64 (by norm_num)]
  exact key _ (Nat.mod_lt _ (by norm_num))

theorem req_render_scanline (s : PPU) : s.render_scanline.req = s.req :=
  (rk_render_scanline s).2.2.2.2.2.2.2.1

theorem req_scan_oam (s : PPU) : s.scan_oam.req = s.req :=
  (scan_oam_proj s).2.2.2.2.2.2.2.2.2.2.1

/-- The list of STAT interrupt requests the LY=LYC comparator issues. -/
def lycReq (t : PPU) (a : Bool) : List Nat :=
  if t.line_y = t.line_y_compare ∧ t.status &&& EnableLYCandLYInt ≠ 0 ∧ a = true
  then [INT_LCD_STAT_BIT] else []

theorem req_check_ly_lyc (s : PPU) (a : Bool) :
    (s.check_ly_lyc a).req = s.req ++ lycReq s a := by
  unfold PPU.check_ly_lyc lycReq
  simp only [set_stat_false, set_stat_true]
  by_cases hl : s.line_y = s.line_y_compare
  · rw [if_pos (by simpa using hl)]
    have hch : (PPU.check_stat
        { s with status := s.status &&& (255 ^^^ LYCandLYCompareType) ||| LYCandLYCompareType }
        EnableLYCandLYInt) = (s.status &&& 64 != 0) := by
      unfold PPU.check_stat
      dsimp only
      show ((s.status &&& 251 ||| 4) &&& 64 != 0) = _
      rw [L_enable64]
    rw [hch]
    by_cases he : s.status &&& 64 ≠ 0
    · by_cases ha : a = true
      · rw [if_pos (by simp [he, ha])]
        rw [if_pos ⟨hl, by simpa [EnableLYCandLYInt] using he, ha⟩]
        rfl
      · rw [if_neg (by simp [ha])]
        rw [if_neg (by simp [ha])]
        simp
    · rw [if_neg (by simp [he])]
      rw [if_neg (by simp [EnableLYCandLYInt]; intro _ hcon; exact absurd hcon (by simpa using he))]
      simp
  · rw [if_neg (by simpa using hl)]
    rw [if_neg (by simp [hl])]
    simp

/-- The list of interrupt requests the mode dispatch issues, as a function
of the pre-dispatch state and the STAT-blocking gate. -/
def dispatchReqs (t : PPU) (a : Bool) : List Nat :=
  match t.mode with
  | PPUState.HBlank =>
    if 204 ≤ t.cycles then
      if (t.line_y + 1) % 256 = 144 then
        INT_VBLANK_BIT ::
          (if t.status &&& EnableVBlankInt ≠ 0 ∧ a = true then [INT_LCD_STAT_BIT] else [])
      else
        if t.status &&& EnableOAMInt ≠ 0 ∧ a = true then [INT_LCD_STAT_BIT] else []
    else []
  | PPUState.VBlank =>
    if 456 ≤ t.cycles ∧ 153 < (t.line_y + 1) % 256 then
      if t.status &&& EnableOAMInt ≠ 0 ∧ a = true then [INT_LCD_STAT_BIT] else []
    else []
  | PPUState.OAMSearch => []
  | PPUState.DrawScanline =>
    if 172 ≤ t.cycles then
      if t.status &&& EnableHBlankInt ≠ 0 ∧ a = true then [INT_LCD_STAT_BIT] else []
    else []

theorem req_mode_dispatch (s : PPU) (a : Bool) :
    (s.mode_dispatch a).req = s.req ++ dispatchReqs s a := by
  unfold PPU.mode_dispatch dispatchReqs
  cases hm : s.mode <;> dsimp only <;>
    split_ifs <;>
    simp_all [PPU.request_interrupt, PPU.check_stat, req_render_scanline, req_scan_oam,
      List.append_assoc]

theorem step_new_reqs (s : PPU) (n : Nat)
    (hen : s.lcd_control &&& LCDControlFlags.DisplayEnable ≠ 0)
    (hprev : s.previously_disabled = false) :
    s.new_reqs n =
      dispatchReqs { s with cycles := (s.cycles + n) % 4294967296 } (!s.stat_any) ++
      lycReq (PPU.mode_dispatch { s with cycles := (s.cycles + n) % 4294967296 }
        (!s.stat_any)) (!s.stat_any) := by
  unfold PPU.new_reqs PPU.step
  rw [if_neg (by simpa using hen)]
  dsimp only
  rw [if_neg (by simp [hprev])]
  unfold PPU.step_main
  dsimp only
  rw [apply_ite PPU.req]
  dsimp only
  rw [ite_self, req_check_ly_lyc, req_mode_dispatch]
  dsimp only
  rw [List.append_assoc, List.drop_left]
  rfl

theorem count_vblank_dispatchReqs (t : PPU) (a : Bool) :
    List.count INT_VBLANK_BIT (dispatchReqs t a) =
      if t.mode = PPUState.HBlank ∧ 204 ≤ t.cycles ∧ (t.line_y + 1) % 256 = 144
      then 1 else 0 := by
  unfold dispatchReqs
  cases hm : t.mode <;> dsimp only <;> split_ifs <;>
    simp_all [INT_VBLANK_BIT, INT_LCD_STAT_BIT]

theorem count_vblank_lycReq (t : PPU) (a : Bool) :
    List.count INT_VBLANK_BIT (lycReq t a) = 0 := by
  unfold lycReq
  split_ifs <;> simp [INT_VBLANK_BIT, INT_LCD_STAT_BIT]

/-- C3: during a call with the display enabled, a VBlank interrupt request
is issued exactly once when the call performs the HBlank transition that
takes the line counter to 144, and never otherwise; the condition does not
involve the STAT enable bits or the STAT-blocking gate, so the request is
unconditional.  Together with the C2 frame structure this yields exactly
one VBlank request per 154-line frame. -/
theorem spec_C3_vblank_request_exactly_at_line144 (s : PPU) (n : Nat)
    (hen : s.lcd_control &&& LCDControlFlags.DisplayEnable ≠ 0)
    (hprev : s.previously_disabled = false) :
    List.count INT_VBLANK_BIT (s.new_reqs n) =
      if s.mode = PPUState.HBlank ∧ 204 ≤ (s.cycles + n) % 4294967296 ∧
          (s.line_y + 1) % 256 = 144 then 1 else 0 := by
  rw [step_new_reqs s n hen hprev, List.count_append, count_vblank_dispatchReqs,
    count_vblank_lycReq]
  simp

/-- Concrete state at HBlank, line 143, about to transition to VBlank. -/
def hblank143PPU : PPU :=
  { initPPU with lcd_control := 0x80, mode := PPUState.HBlank, cycles := 200,
                 line_y := 143 }

/-- Witness for C3: at line 143 in HBlank, a 10-cycle advance crosses the
204-cycle budget and issues exactly one VBlank request. -/
theorem spec_C3_witness :
    hblank143PPU.lcd_control &&& LCDControlFlags.DisplayEnable ≠ 0 ∧
    List.count INT_VBLANK_BIT (hblank143PPU.new_reqs 10) =
      (if hblank143PPU.mode = PPUState.HBlank ∧
          204 ≤ (hblank143PPU.cycles + 10) % 4294967296 ∧
          (hblank143PPU.line_y + 1) % 256 = 144 then 1 else 0) :=
  ⟨by decide, spec_C3_vblank_request_exactly_at_line144 hblank143PPU 10 (by decide) rfl⟩

theorem stat_not_mem_dispatchReqs (t : PPU) : INT_LCD_STAT_BIT ∉ dispatchReqs t false := by
  unfold dispatchReqs
  cases hm : t.mode <;> dsimp only <;>
    first
      | (split_ifs <;> simp_all [INT_VBLANK_BIT, INT_LCD_STAT_BIT])
      | simp

theorem stat_not_mem_lycReq (t : PPU) : INT_LCD_STAT_BIT ∉ lycReq t false := by
  unfold lycReq
  split_ifs <;> simp_all

/-- C4: the STAT-blocking gate is computed once from the state at the
start of the call (`stat_any`: the LYC compare flag and the
mode-matching enable bits); when some enabled STAT source is already
asserted, no LCD-STAT request is issued anywhere in the call — neither by
a mode transition nor by the LY=LYC comparator. -/
theorem spec_C4_stat_blocking_suppresses_stat_requests (s : PPU) (n : Nat)
    (hen : s.lcd_control &&& LCDControlFlags.DisplayEnable ≠ 0)
    (hprev : s.previously_disabled = false)
    (hstat : s.stat_any = true) :
    INT_LCD_STAT_BIT ∉ s.new_reqs n := by
  rw [step_new_reqs s n hen hprev]
  rw [hstat]
  simp only [Bool.not_true]
  intro hmem
  rcases List.mem_append.mp hmem with h | h
  · exact stat_not_mem_dispatchReqs _ h
  · exact stat_not_mem_lycReq _ h

/-- Concrete state with the HBlank STAT source already asserted. -/
def statBlockedPPU : PPU :=
  { initPPU with lcd_control := 0x80, status := 8, cycles := 200, line_y := 10 }

/-- Witness for C4: with the HBlank STAT enable set while in HBlank, the
gate is closed and a transition-crossing advance issues no STAT request. -/
theorem spec_C4_witness :
    statBlockedPPU.stat_any = true ∧ INT_LCD_STAT_BIT ∉ statBlockedPPU.new_reqs 10 :=
  ⟨by decide,
   spec_C4_stat_blocking_suppresses_stat_requests statBlockedPPU 10 (by decide) rfl
     (by decide)⟩

/-- The state right after the mode dispatch inside PPU::step (cycles
accumulated, STAT gate computed, dispatch applied, comparator and status
update still pending). -/
def PPU.dstate (t : PPU) (n : Nat) : PPU :=
  PPU.mode_dispatch { t with cycles := (t.cycles + n) % 4294967296 }
    (!PPU.stat_any { t with cycles := (t.cycles + n) % 4294967296 })

theorem fbc_step_main (t : PPU) (n : Nat) :
    (t.step_main n).framebuffer_complete = (t.dstate n).framebuffer_complete := by
  unfold PPU.step_main PPU.dstate
  dsimp only
  rw [apply_ite PPU.framebuffer_complete]
  dsimp only
  rw [ite_self]
  exact (check_ly_lyc_proj _ _).2.2.2.2.2.2.1

theorem mode_step_main (t : PPU) (n : Nat) :
    (t.step_main n).mode = (t.dstate n).mode := by
  unfold PPU.step_main PPU.dstate
  dsimp only
  rw [apply_ite PPU.mode]
  dsimp only
  rw [ite_self]
  exact (check_ly_lyc_proj _ _).1

theorem line_step_main (t : PPU) (n : Nat) :
    (t.step_main n).line_y = (t.dstate n).line_y := by
  unfold PPU.step_main PPU.dstate
  dsimp only
  rw [apply_ite PPU.line_y]
  dsimp only
  rw [ite_self]
  exact (check_ly_lyc_proj _ _).2.1

theorem fbc_render_scanline (s : PPU) :
    s.render_scanline.framebuffer_complete = s.framebuffer_complete :=
  (rk_render_scanline s).2.2.2.2.2.2.1

theorem fbc_scan_oam (s : PPU) :
    s.scan_oam.framebuffer_complete = s.framebuffer_complete :=
  (scan_oam_proj s).2.2.2.2.2.2.2.1

theorem reset_false_eq (s : PPU) :
    s.reset false = { s with window_draw_flag := false, num_obj_on_scanline := 0,
                             cycles := 0, line_y := 0, window_line_y := 0 } := rfl

/-- C7: the completed framebuffer is modified only at the VBlank line
153 → 0 wraparound; in that single case it becomes a wholesale copy of
the working framebuffer and the machine restarts at line 0 in OAM search;
in every other situation the completed framebuffer of the post-call state
is exactly the pre-call one (never a partial change). -/
theorem spec_C7_completed_framebuffer_only_at_wraparound (s : PPU) (n : Nat)
    (hline : s.line_y ≤ 153) :
    (s.step n).framebuffer_complete = s.framebuffer_complete ∨
    (s.previously_disabled = false ∧ s.mode = PPUState.VBlank ∧ s.line_y = 153 ∧
      456 ≤ (s.cycles + n) % 4294967296 ∧
      (s.step n).framebuffer_complete = s.framebuffer ∧
      (s.step n).line_y = 0 ∧ (s.step n).mode = PPUState.OAMSearch) := by
  by_cases hen : s.lcd_control &&& LCDControlFlags.DisplayEnable = 0
  · left
    rw [step_disabled s n hen]
  · by_cases hpv : s.previously_disabled = true
    · left
      rw [step_reenable s n hen hpv, fbc_step_main]
      unfold PPU.dstate PPU.mode_dispatch
      rw [reset_false_eq]
      dsimp only
      cases hm : s.mode <;> dsimp only <;> split_ifs <;>
        first
          | (rw [fbc_scan_oam] <;> rfl)
          | (rw [fbc_render_scanline] <;> rfl)
          | rfl
          | (exfalso; omega)
    · have hp : s.previously_disabled = false := by
        cases hb : s.previously_disabled
        · rfl
        · exact absurd hb hpv
      rw [step_enabled s n hen hp]
      by_cases hcopy : s.mode = PPUState.VBlank ∧ 456 ≤ (s.cycles + n) % 4294967296 ∧
          s.line_y = 153
      · right
        obtain ⟨hmv, hcy, hl153⟩ := hcopy
        refine ⟨hp, hmv, hl153, hcy, ?_, ?_, ?_⟩
        · rw [fbc_step_main]
          unfold PPU.dstate PPU.mode_dispatch
          dsimp only
          rw [hmv]
          dsimp only
          rw [if_pos hcy, if_pos (by omega)] <;> first | rfl | (split_ifs <;> rfl)
        · rw [line_step_main]
          unfold PPU.dstate PPU.mode_dispatch
          dsimp only
          rw [hmv]
          dsimp only
          rw [if_pos hcy, if_pos (by omega)] <;> first | rfl | (split_ifs <;> rfl)
        · rw [mode_step_main]
          unfold PPU.dstate PPU.mode_dispatch
          dsimp only
          rw [hmv]
          dsimp only
          rw [if_pos hcy, if_pos (by omega)] <;> first | rfl | (split_ifs <;> rfl)
      · left
        rw [fbc_step_main]
        unfold PPU.dstate PPU.mode_dispatch
        dsimp only
        cases hm : s.mode <;> dsimp only <;> split_ifs <;>
          first
            | (rw [fbc_scan_oam] <;> rfl)
            | (rw [fbc_render_scanline] <;> rfl)
            | rfl
            | (exfalso; exact hcopy ⟨hm, by omega, by omega⟩)

/-- Concrete state at VBlank line 153 about to wrap to a new frame. -/
def vblank153PPU : PPU :=
  { initPPU with lcd_control := 0x80, mode := PPUState.VBlank, cycles := 400,
                 line_y := 153, framebuffer := fun _ => 9 }

/-- Witness for C7: a 100-cycle advance from VBlank line 153 commits the
working framebuffer and restarts the frame. -/
theorem spec_C7_witness :
    vblank153PPU.line_y ≤ 153 ∧
    ((vblank153PPU.step 100).framebuffer_complete = vblank153PPU.framebuffer_complete ∨
    (vblank153PPU.previously_disabled = false ∧ vblank153PPU.mode = PPUState.VBlank ∧
      vblank153PPU.line_y = 153 ∧
      456 ≤ (vblank153PPU.cycles + 100) % 4294967296 ∧
      (vblank153PPU.step 100).framebuffer_complete = vblank153PPU.framebuffer ∧
      (vblank153PPU.step 100).line_y = 0 ∧
      (vblank153PPU.step 100).mode = PPUState.OAMSearch)) :=
  ⟨by decide, spec_C7_completed_framebuffer_only_at_wraparound vblank153PPU 100 (by decide)⟩

theorem mode_render_scanline (s : PPU) : s.render_scanline.mode = s.mode :=
  (rk_render_scanline s).1

theorem line_render_scanline (s : PPU) : s.render_scanline.line_y = s.line_y :=
  (rk_render_scanline s).2.1

theorem mode_scan_oam (s : PPU) : s.scan_oam.mode = s.mode :=
  (scan_oam_proj s).1

theorem line_scan_oam (s : PPU) : s.scan_oam.line_y = s.line_y :=
  (scan_oam_proj s).2.1

/-- The mode/line invariant of the running (display-enabled) machine:
the line counter stays in [0,153], VBlank holds exactly on lines 144–153. -/
def ModeLineInv (s : PPU) : Prop :=
  s.line_y ≤ 153 ∧
  (s.mode = PPUState.VBlank → 144 ≤ s.line_y) ∧
  (s.mode ≠ PPUState.VBlank → s.line_y ≤ 143)

/-- The transitions a single advance call may perform: either nothing
changes, or exactly one step of the cycle
OAMSearch → DrawScanline → HBlank → (OAMSearch | VBlank at 144) →
VBlank… → OAMSearch with the single line reset at the 153 → 0 wrap. -/
def StepRel (s t : PPU) : Prop :=
  (t.mode = s.mode ∧ t.line_y = s.line_y) ∨
  (s.mode = PPUState.OAMSearch ∧ t.mode = PPUState.DrawScanline ∧
    t.line_y = s.line_y) ∨
  (s.mode = PPUState.DrawScanline ∧ t.mode = PPUState.HBlank ∧
    t.line_y = s.line_y) ∨
  (s.mode = PPUState.HBlank ∧ t.mode = PPUState.OAMSearch ∧
    t.line_y = s.line_y + 1 ∧ t.line_y ≤ 143) ∨
  (s.mode = PPUState.HBlank ∧ t.mode = PPUState.VBlank ∧ s.line_y = 143 ∧
    t.line_y = 144) ∨
  (s.mode = PPUState.VBlank ∧ t.mode = PPUState.VBlank ∧
    t.line_y = s.line_y + 1 ∧ t.line_y ≤ 153) ∨
  (s.mode = PPUState.VBlank ∧ t.mode = PPUState.OAMSearch ∧ s.line_y = 153 ∧
    t.line_y = 0)

/-- C2: with the display enabled, each advance preserves the line/mode
invariant (line in [0,153], VBlank exactly on lines ≥ 144) and performs
only the transitions of the claimed mode cycle, the line counter being
incremented only by HBlank/VBlank budget expiry and reset to 0 exactly
at the VBlank line-153 wrap. -/
theorem spec_C2_mode_cycle_and_line_invariant (s : PPU) (n : Nat)
    (hen : s.lcd_control &&& LCDControlFlags.DisplayEnable ≠ 0)
    (hprev : s.previously_disabled = false)
    (hinv : ModeLineInv s) :
    ModeLineInv (s.step n) ∧ StepRel s (s.step n) := by
  rw [step_enabled s n hen hprev]
  unfold ModeLineInv StepRel
  unfold ModeLineInv at hinv
  rw [mode_step_main, line_step_main]
  unfold PPU.dstate PPU.mode_dispatch
  dsimp only
  obtain ⟨h153, hvb, hnvb⟩ := hinv
  cases hmm : s.mode <;> dsimp only <;> split_ifs <;>
    simp_all [mode_render_scanline, line_render_scanline, mode_scan_oam, line_scan_oam,
      PPU.request_interrupt] <;>
    omega

/-- Concrete state in DrawScanline on line 5. -/
def draw5PPU : PPU :=
  { initPPU with lcd_control := 0x80, mode := PPUState.DrawScanline, cycles := 100,
                 line_y := 5 }

/-- Witness for C2 at a concrete DrawScanline state crossing into HBlank. -/
theorem spec_C2_witness :
    ModeLineInv draw5PPU ∧ (ModeLineInv (draw5PPU.step 100) ∧ StepRel draw5PPU (draw5PPU.step 100)) :=
  ⟨by unfold ModeLineInv; decide,
   spec_C2_mode_cycle_and_line_invariant draw5PPU 100 (by decide) rfl
     (by unfold ModeLineInv; decide)⟩

/-! ## Single-call fusion: the tail of PPU::step after the dispatch -/

/-- The tail of the step body: LY/LYC comparator, window latch, and the
refresh of the status mode bits. -/
def postlude (t : PPU) (a : Bool) : PPU :=
  let u := t.check_ly_lyc a
  let u := if u.window_y == u.line_y then { u with window_draw_flag := true } else u
  { u with status := (u.status &&& (255 ^^^ ModeFlag)) ||| (u.mode.toNat &&& 3) }

theorem lcd_check_ly_lyc (s : PPU) (a : Bool) :
    (s.check_ly_lyc a).lcd_control = s.lcd_control := by
  have h := cfg_check_ly_lyc s a
  simp only [PPU.cfg, Prod.mk.injEq] at h
  exact h.2.2.1

theorem postlude_proj (t : PPU) (a : Bool) :
    (postlude t a).lcd_control = t.lcd_control ∧
    (postlude t a).previously_disabled = t.previously_disabled ∧
    (postlude t a).cycles = t.cycles ∧
    (postlude t a).mode = t.mode ∧
    (postlude t a).line_y = t.line_y := by
  unfold postlude
  dsimp only
  refine ⟨?_, ?_, ?_, ?_, ?_⟩
  · rw [apply_ite PPU.lcd_control]
    dsimp only
    rw [ite_self]
    exact lcd_check_ly_lyc t a
  · rw [apply_ite PPU.previously_disabled]
    dsimp only
    rw [ite_self]
    exact (check_ly_lyc_proj t a).2.2.2.1
  · rw [apply_ite PPU.cycles]
    dsimp only
    rw [ite_self]
    exact (check_ly_lyc_proj t a).2.2.1
  · rw [apply_ite PPU.mode]
    dsimp only
    rw [ite_self]
    exact (check_ly_lyc_proj t a).1
  · rw [apply_ite PPU.line_y]
    dsimp only
    rw [ite_self]
    exact (check_ly_lyc_proj t a).2.1

theorem mode_dispatch_no_trans (t : PPU) (a : Bool) (h : t.cycles < PPU.budget t.mode) :
    t.mode_dispatch a = t := by
  unfold PPU.mode_dispatch
  cases hm : t.mode <;> rw [hm] at h <;> simp only [PPU.budget] at h <;> dsimp only <;>
    rw [if_neg (by omega)]

theorem step_no_trans (s : PPU) (n : Nat)
    (hen : s.lcd_control &&& LCDControlFlags.DisplayEnable ≠ 0)
    (hprev : s.previously_disabled = false)
    (h : s.cycles + n < PPU.budget s.mode) :
    s.step n = postlude { s with cycles := s.cycles + n } (!s.stat_any) := by
  have hb : PPU.budget s.mode ≤ 456 := by cases s.mode <;> simp [PPU.budget]
  rw [step_enabled s n hen hprev]
  unfold PPU.step_main postlude
  dsimp only
  rw [Nat.mod_eq_of_lt (by omega)]
  rw [mode_dispatch_no_trans _ _ (by simpa using h)]
  rfl

set_option maxRecDepth 100000 in
theorem byte_key : ∀ y, y < 256 → ∀ z, z < 4 →
    (((((((y &&& 251) ||| 4) &&& 252) ||| z) &&& 251) ||| 4) &&& 252) ||| z =
      (((y &&& 251) ||| 4) &&& 252) ||| z ∧
    (((((y &&& 251) &&& 252) ||| z) &&& 251) &&& 252) ||| z =
      ((y &&& 251) &&& 252) ||| z ∧
    ((((((y &&& 251) ||| 4) &&& 252) ||| z) &&& 251) ||| 4) &&& 64 = y &&& 64 ∧
    ((((y &&& 251) ||| 4) &&& 252) ||| z) &&& 4 = 4 ∧
    ((((y &&& 251) ||| 4) &&& 252) ||| z) &&& 64 = y &&& 64 := by decide

theorem byte_key_apply (x m : Nat) :
    (((((((x &&& 251) ||| 4) &&& 252) ||| (m &&& 3)) &&& 251) ||| 4) &&& 252) ||| (m &&& 3) =
      (((x &&& 251) ||| 4) &&& 252) ||| (m &&& 3) ∧
    (((((x &&& 251) &&& 252) ||| (m &&& 3)) &&& 251) &&& 252) ||| (m &&& 3) =
      ((x &&& 251) &&& 252) ||| (m &&& 3) ∧
    ((((((x &&& 251) ||| 4) &&& 252) ||| (m &&& 3)) &&& 251) ||| 4) &&& 64 = x &&& 64 ∧
    ((((x &&& 251) ||| 4) &&& 252) ||| (m &&& 3)) &&& 4 = 4 ∧
    ((((x &&& 251) ||| 4) &&& 252) ||| (m &&& 3)) &&& 64 = x &&& 64 := by
  have hz : m &&& 3 < 4 := by
    have := Nat.and_le_right (n := m) (m := 3)
    omega
  have hy : x % 256 < 256 := Nat.mod_lt _ (by norm_num)
  rw [land_mod256 x 251 (by norm_num), land_mod256 x 64 (by norm_num)]
  exact byte_key (x % 256) hy (m &&& 3) hz

theorem postlude_closed (t : PPU) (a : Bool) :
    postlude t a =
      { t with
        status := ((if t.line_y = t.line_y_compare then (t.status &&& 251) ||| 4
                    else t.status &&& 251) &&& 252) ||| (t.mode.toNat &&& 3),
        window_draw_flag := if t.window_y = t.line_y then true else t.window_draw_flag,
        req := t.req ++ lycReq t a } := by
  unfold postlude PPU.check_ly_lyc lycReq
  simp only [set_stat_false, set_stat_true, PPU.check_stat, PPU.request_interrupt,
    show (LYCandLYCompareType : Nat) = 4 from rfl,
    show (ModeFlag : Nat) = 3 from rfl,
    show (EnableLYCandLYInt : Nat) = 64 from rfl,
    show (255 ^^^ (4 : Nat)) = 251 from rfl,
    show (255 ^^^ (3 : Nat)) = 252 from rfl,
    beq_iff_eq, Bool.and_eq_true, bne_iff_ne, ne_eq,
    L_enable64]
  by_cases hl : t.line_y = t.line_y_compare
  · rw [if_pos hl]
    by_cases hf : ¬t.status &&& 64 = 0 ∧ a = true
    · rw [if_pos hf]
      dsimp only
      by_cases hw : t.window_y = t.line_y
      · rw [if_pos hw, if_pos (show t.line_y = t.line_y_compare ∧ ¬t.status &&& 64 = 0 ∧
          a = true from ⟨hl, hf.1, hf.2⟩)]
        simp [hl, hw]
      · rw [if_neg hw, if_pos (show t.line_y = t.line_y_compare ∧ ¬t.status &&& 64 = 0 ∧
          a = true from ⟨hl, hf.1, hf.2⟩)]
        simp [hl, hw]
        exact fun hcon => absurd (hcon.trans hl.symm) hw
    · rw [if_neg hf]
      dsimp only
      by_cases hw : t.window_y = t.line_y
      · rw [if_pos hw, if_neg (show ¬(t.line_y = t.line_y_compare ∧ ¬t.status &&& 64 = 0 ∧
          a = true) from fun hc => hf ⟨hc.2.1, hc.2.2⟩)]
        simp [hl, hw]
      · rw [if_neg hw, if_neg (show ¬(t.line_y = t.line_y_compare ∧ ¬t.status &&& 64 = 0 ∧
          a = true) from fun hc => hf ⟨hc.2.1, hc.2.2⟩)]
        simp [hl, hw]
        exact fun hcon => absurd (hcon.trans hl.symm) hw
  · rw [if_neg hl]
    dsimp only
    by_cases hw : t.window_y = t.line_y
    · rw [if_pos hw, if_neg (show ¬(t.line_y = t.line_y_compare ∧ ¬t.status &&& 64 = 0 ∧
        a = true) from fun hc => hl hc.1)]
      simp [hl, hw]
    · rw [if_neg hw, if_neg (show ¬(t.line_y = t.line_y_compare ∧ ¬t.status &&& 64 = 0 ∧
        a = true) from fun hc => hl hc.1)]
      simp [hl, hw]

theorem lycReq_false_nil (t : PPU) : lycReq t false = [] := by
  unfold lycReq
  rw [if_neg (fun hc => by simpa using hc.2.2)]

theorem stat_any_after_postlude (s : PPU) (c : Nat) (a : Bool)
    (hl : s.line_y = s.line_y_compare) (he : ¬s.status &&& 64 = 0) :
    (postlude { s with cycles := c } a).stat_any = true := by
  have B := byte_key_apply s.status s.mode.toNat
  rw [postlude_closed]
  unfold PPU.stat_any PPU.check_stat
  dsimp only
  rw [if_pos hl]
  rw [if_pos (by rw [show EnableLYCandLYInt = 64 from rfl, show LYCandLYCompareType = 4 from rfl, B.2.2.2.2, B.2.2.2.1]; simp [he, bne_iff_ne])]

theorem postlude_merge (s : PPU) (c1 c2 : Nat) :
    postlude { (postlude { s with cycles := c1 } (!s.stat_any)) with cycles := c2 }
        (!(postlude { s with cycles := c1 } (!s.stat_any)).stat_any) =
      postlude { s with cycles := c2 } (!s.stat_any) := by
  obtain ⟨B1, B2, B3, B4, B5⟩ := byte_key_apply s.status s.mode.toNat
  by_cases hl : s.line_y = s.line_y_compare
  · by_cases he : s.status &&& 64 = 0
    · simp only [postlude_closed]
      simp only [lycReq, show (EnableLYCandLYInt : Nat) = 64 from rfl]
      by_cases hw : s.window_y = s.line_y <;>
        simp [hw, hl, B1, B5, he]
    · have ha2 : (!(postlude { s with cycles := c1 } (!s.stat_any)).stat_any) = false := by
        rw [stat_any_after_postlude s c1 _ hl he]; rfl
      rw [ha2]
      simp only [postlude_closed]
      simp only [lycReq, show (EnableLYCandLYInt : Nat) = 64 from rfl]
      by_cases hw : s.window_y = s.line_y <;>
        simp [hw, hl, B1, B5, he]
  · simp only [postlude_closed]
    simp only [lycReq, show (EnableLYCandLYInt : Nat) = 64 from rfl]
    by_cases hw : s.window_y = s.line_y <;>
      simp [hw, hl, B2]

theorem step_fuse (s : PPU) (n : Nat)
    (hen : s.lcd_control &&& LCDControlFlags.DisplayEnable ≠ 0)
    (hprev : s.previously_disabled = false)
    (h : s.cycles + 1 + n < PPU.budget s.mode) :
    (s.step 1).step n = s.step (1 + n) := by
  have h1 : s.cycles + 1 < PPU.budget s.mode := by omega
  have hs1 := step_no_trans s 1 hen hprev h1
  have hproj := postlude_proj { s with cycles := s.cycles + 1 } (!s.stat_any)
  have hlcd : (s.step 1).lcd_control = s.lcd_control := by rw [hs1]; exact hproj.1
  have hpd : (s.step 1).previously_disabled = false := by
    rw [hs1]; exact (show _ = s.previously_disabled from hproj.2.1).trans hprev
  have hcy : (s.step 1).cycles = s.cycles + 1 := by rw [hs1]; exact hproj.2.2.1
  have hmo : (s.step 1).mode = s.mode := by rw [hs1]; exact hproj.2.2.2.1
  rw [step_no_trans (s.step 1) n (by rw [hlcd]; exact hen) hpd (by rw [hcy, hmo]; omega)]
  rw [step_no_trans s (1 + n) hen hprev (by omega)]
  rw [hcy, hs1]
  have harith : s.cycles + (1 + n) = s.cycles + 1 + n := by omega
  rw [harith]
  exact postlude_merge s (s.cycles + 1) (s.cycles + 1 + n)

theorem stepN_eq_step (n : Nat) : ∀ s : PPU,
    s.lcd_control &&& LCDControlFlags.DisplayEnable ≠ 0 →
    s.previously_disabled = false →
    1 ≤ n → s.cycles + n < PPU.budget s.mode →
    PPU.stepN n s = s.step n := by
  induction n with
  | zero => intro s _ _ hn _; omega
  | succ m ih =>
    intro s hen hprev _ h
    show PPU.stepN m (s.step 1) = s.step (m + 1)
    rcases Nat.eq_zero_or_pos m with hm | hm
    · subst hm
      rfl
    · have h1 : s.cycles + 1 < PPU.budget s.mode := by omega
      have hs1 := step_no_trans s 1 hen hprev h1
      have hproj := postlude_proj { s with cycles := s.cycles + 1 } (!s.stat_any)
      have hlcd : (s.step 1).lcd_control = s.lcd_control := by rw [hs1]; exact hproj.1
      have hpd : (s.step 1).previously_disabled = false := by
        rw [hs1]; exact (show _ = s.previously_disabled from hproj.2.1).trans hprev
      have hcy : (s.step 1).cycles = s.cycles + 1 := by rw [hs1]; exact hproj.2.2.1
      have hmo : (s.step 1).mode = s.mode := by rw [hs1]; exact hproj.2.2.2.1
      rw [ih (s.step 1) (by rw [hlcd]; exact hen) hpd hm (by rw [hcy, hmo]; omega)]
      rw [step_fuse s m hen hprev (by omega)]
      rw [Nat.add_comm]

/-- A freshly reset PPU with the display enabled: the canonical start state of a
running PPU, from which the counterexample below is produced purely by stepping. -/
def c1Start : PPU := { initPPU with lcd_control := 128 }

set_option maxRecDepth 100000 in
/-- C1 counterexample: from the state one 203-cycle advance after the clean start
(still in HBlank, one cycle before the 204-cycle budget), 82 one-cycle advances end in
DrawScanline while a single 82-cycle advance ends in OAMSearch, because one call to
step processes at most one mode transition no matter how many cycles it is handed.
The original claim is therefore false. -/
theorem spec_C1_counterexample :
    (PPU.stepN 82 (c1Start.step 203)).mode ≠ ((c1Start.step 203).step 82).mode := by
  decide

/-- C1 (amended): with the display enabled and the re-enable flag clear, N one-cycle
advances produce exactly the same final state as a single N-cycle advance (N ≥ 1),
provided the accumulated cycle counter stays below the current mode's budget, i.e. the
call crosses no mode transition.  The unrestricted claim fails because a single advance
processes at most one mode transition per call. -/
theorem spec_C1_cycle_split_no_budget_crossing (s : PPU) (n : Nat)
    (hen : s.lcd_control &&& LCDControlFlags.DisplayEnable ≠ 0)
    (hprev : s.previously_disabled = false)
    (hn : 1 ≤ n) (h : s.cycles + n < PPU.budget s.mode) :
    PPU.stepN n s = s.step n :=
  stepN_eq_step n s hen hprev hn h

/-- Witness for the amended C1 theorem at a concrete input: the clean start state with
the display enabled, advanced 100 cycles (inside the 204-cycle HBlank budget). -/
theorem spec_C1_witness :
    c1Start.lcd_control &&& LCDControlFlags.DisplayEnable ≠ 0 ∧
    c1Start.previously_disabled = false ∧
    1 ≤ 100 ∧ c1Start.cycles + 100 < PPU.budget c1Start.mode ∧
    PPU.stepN 100 c1Start = c1Start.step 100 :=
  ⟨by decide, rfl, by decide, by decide,
    spec_C1_cycle_split_no_budget_crossing c1Start 100 (by decide) rfl (by decide) (by decide)⟩
